import Mathlib

/-!
Shallow embedding of the HyperDbg hypervisor configuration / VMX layer
(`Configuration.c` and `Vmx.c`), used to check the natural-language
specification against the code.

The hardware environment (VMCS reads, CPUID, MSRs, control registers,
memory-safety oracles) is modelled as explicit inputs; side effects
(VMCS writes, logging, VMXOFF, allocation/free) are modelled either as a
trace of actions or as explicit output state.
-/

namespace HyperDbg

/-- VMCS field encodings (Intel SDM appendix B; the repository takes them
from its `ia32.h`-style headers, which are not part of the sources here). -/
def VMCS_VM_INSTRUCTION_ERROR : Nat := 0x4400

def VMCS_GUEST_VMCS_LINK_POINTER : Nat := 0x2800

def VMCS_GUEST_CR3 : Nat := 0x6802

def VMCS_GUEST_RIP : Nat := 0x681E

def VMCS_GUEST_RSP : Nat := 0x681C

def VMCS_VMEXIT_INSTRUCTION_LENGTH : Nat := 0x440C

def VMCS_HOST_ES_SELECTOR : Nat := 0x0C00

def VMCS_HOST_CS_SELECTOR : Nat := 0x0C02

def VMCS_HOST_SS_SELECTOR : Nat := 0x0C04

def VMCS_HOST_DS_SELECTOR : Nat := 0x0C06

def VMCS_HOST_FS_SELECTOR : Nat := 0x0C08

def VMCS_HOST_GS_SELECTOR : Nat := 0x0C0A

def VMCS_HOST_TR_SELECTOR : Nat := 0x0C0C

def VMCS_GUEST_DEBUGCTL : Nat := 0x2802

def VMCS_GUEST_DEBUGCTL_HIGH : Nat := 0x2803

def VMCS_CTRL_TSC_OFFSET : Nat := 0x2010

def VMCS_CTRL_PAGEFAULT_ERROR_CODE_MASK : Nat := 0x4006

def VMCS_CTRL_PAGEFAULT_ERROR_CODE_MATCH : Nat := 0x4008

def VMCS_CTRL_VMEXIT_MSR_STORE_COUNT : Nat := 0x400E

def VMCS_CTRL_VMEXIT_MSR_LOAD_COUNT : Nat := 0x4010

def VMCS_CTRL_VMENTRY_MSR_LOAD_COUNT : Nat := 0x4014

def VMCS_CTRL_VMENTRY_INTERRUPTION_INFORMATION_FIELD : Nat := 0x4016

def VMCS_GUEST_FS_BASE : Nat := 0x680E

def VMCS_GUEST_GS_BASE : Nat := 0x6810

def VMCS_CTRL_PROCESSOR_BASED_VM_EXECUTION_CONTROLS : Nat := 0x4002

def VMCS_CTRL_SECONDARY_PROCESSOR_BASED_VM_EXECUTION_CONTROLS : Nat := 0x401E

def VMCS_CTRL_PIN_BASED_VM_EXECUTION_CONTROLS : Nat := 0x4000

def VMCS_CTRL_PRIMARY_VMEXIT_CONTROLS : Nat := 0x400C

def VMCS_CTRL_VMENTRY_CONTROLS : Nat := 0x4012

def VMCS_CTRL_CR0_GUEST_HOST_MASK : Nat := 0x6000

def VMCS_CTRL_CR4_GUEST_HOST_MASK : Nat := 0x6002

def VMCS_CTRL_CR0_READ_SHADOW : Nat := 0x6004

def VMCS_CTRL_CR4_READ_SHADOW : Nat := 0x6006

def VMCS_GUEST_CR0 : Nat := 0x6800

def VMCS_GUEST_CR4 : Nat := 0x6804

def VMCS_GUEST_DR7 : Nat := 0x681A

def VMCS_HOST_CR0 : Nat := 0x6C00

def VMCS_HOST_CR3 : Nat := 0x6C02

def VMCS_HOST_CR4 : Nat := 0x6C04

def VMCS_GUEST_GDTR_BASE : Nat := 0x6816

def VMCS_GUEST_IDTR_BASE : Nat := 0x6818

def VMCS_GUEST_GDTR_LIMIT : Nat := 0x4810

def VMCS_GUEST_IDTR_LIMIT : Nat := 0x4812

def VMCS_GUEST_RFLAGS : Nat := 0x6820

def VMCS_GUEST_SYSENTER_CS : Nat := 0x482A

def VMCS_GUEST_SYSENTER_EIP : Nat := 0x6826

def VMCS_GUEST_SYSENTER_ESP : Nat := 0x6824

def VMCS_HOST_TR_BASE : Nat := 0x6C0A

def VMCS_HOST_FS_BASE : Nat := 0x6C06

def VMCS_HOST_GS_BASE : Nat := 0x6C08

def VMCS_HOST_GDTR_BASE : Nat := 0x6C0C

def VMCS_HOST_IDTR_BASE : Nat := 0x6C0E

def VMCS_HOST_SYSENTER_CS : Nat := 0x4C00

def VMCS_HOST_SYSENTER_EIP : Nat := 0x6C12

def VMCS_HOST_SYSENTER_ESP : Nat := 0x6C10

def VMCS_CTRL_MSR_BITMAP_ADDRESS : Nat := 0x2004

def VMCS_CTRL_IO_BITMAP_A_ADDRESS : Nat := 0x2000

def VMCS_CTRL_IO_BITMAP_B_ADDRESS : Nat := 0x2002

def VMCS_CTRL_EPT_POINTER : Nat := 0x201A

def VIRTUAL_PROCESSOR_ID : Nat := 0x0000

def VMCS_HOST_RSP : Nat := 0x6C14

def VMCS_HOST_RIP : Nat := 0x6C16

def VMCS_GUEST_RSP_FIELD : Nat := VMCS_GUEST_RSP

/-- Observable actions performed by the modelled routines: VMX instructions,
logging, control-register writes, allocation and the coarse-grained steps of
the initialization sequence. -/
inductive HvAct : Type where
  | vmread (field : Nat)
  | vmclear
  | vmptrld
  | vmlaunch
  | vmresumeInstr
  | vmxoff
  | logDebug
  | logErr
  | writecr3 (v : Nat)
  | restoreHostRegs
  | setupVmcs
  | allocEptState
  | freeEptState
  | checkEptFeatures
  | buildMtrrMap
  | poolManagerInit
  | eptLogicalInit
  | broadcastVirtualize
  | broadcastEnableSyscallHook
  | dpcSingleCore (coreId : Nat)
deriving DecidableEq, Repr

/-! ## `VmxCheckVmxSupport`

Environment: ECX of CPUID leaf 1 and the `EnableVmxOutsideSmx` bit of the
IA32_FEATURE_CONTROL MSR. The routine performs no state writes (the
historical write to IA32_FEATURE_CONTROL is commented out in the source),
so its trace holds log records only. -/

structure VmxSupportEnv where
  cpuid1Ecx : Nat
  enableVmxOutsideSmx : Bool

/-- Model of `VmxCheckVmxSupport` (Vmx.c): check CPUID.1:ECX[5], then the
`EnableVmxOutsideSmx` bit of IA32_FEATURE_CONTROL; no writes on any path. -/
def vmxCheckVmxSupport (env : VmxSupportEnv) : Bool × List HvAct :=
  if !(env.cpuid1Ecx.testBit 5) then
    (false, [])
  else if env.enableVmxOutsideSmx = false then
    (false, [HvAct.logErr])
  else
    (true, [])

/-- Actions that mutate machine or hypervisor state (as opposed to pure
reads and log records). -/
def HvAct.isStateWrite : HvAct → Bool
  | HvAct.writecr3 _ => true
  | HvAct.vmxoff => true
  | HvAct.vmclear => true
  | HvAct.vmptrld => true
  | HvAct.vmlaunch => true
  | HvAct.vmresumeInstr => true
  | HvAct.setupVmcs => true
  | HvAct.allocEptState => true
  | HvAct.freeEptState => true
  | HvAct.restoreHostRegs => true
  | _ => false

/-! ## `VmxGetCurrentExecutionMode` -/

/-- Execution modes returned by `VmxGetCurrentExecutionMode`
(`VmxExecutionModeNonRoot` / `VmxExecutionModeRoot`). -/
inductive VmxExecutionMode : Type where
  | nonRoot
  | root
deriving DecidableEq, Repr

/-- Per-core virtual-machine state, restricted to the fields the claims
need (`VIRTUAL_MACHINE_STATE`). -/
structure CoreVmState where
  isOnVmxRootMode : Bool

/-- Model of `VmxGetCurrentExecutionMode` (Vmx.c): when the global guest
state array `g_GuestState` is null it returns non-root; otherwise it
consults the current core's `IsOnVmxRootMode` flag. -/
def vmxGetCurrentExecutionMode (gGuestState : Option (Nat → CoreVmState))
    (currentCore : Nat) : VmxExecutionMode :=
  match gGuestState with
  | some gs =>
      if (gs currentCore).isOnVmxRootMode then VmxExecutionMode.root
      else VmxExecutionMode.nonRoot
  | none => VmxExecutionMode.nonRoot

/-! ## `VmxCheckIsOnVmxRoot`

The VMREAD of the VMCS link pointer is an oracle: `none` models a fault
(caught by the `__try/__except` boundary), `some (status, value)` models
a completed VMREAD returning `status` and storing `value`. -/

/-- Model of `VmxCheckIsOnVmxRoot` (Vmx.c): true exactly when the guarded
VMREAD of `VMCS_GUEST_VMCS_LINK_POINTER` completes with a zero (success)
status and a non-zero stored value. -/
def vmxCheckIsOnVmxRoot (vmreadOutcome : Option (Nat × Nat)) : Bool :=
  match vmreadOutcome with
  | none => false
  | some (status, value) =>
      if status = 0 then
        if value ≠ 0 then true else false
      else false

/-- Written from the specification's words, for comparison with the model
of the source: "if it returns non-error with a non-zero value, the caller
is in VMX root". -/
def isVmxRootSpec (vmreadOutcome : Option (Nat × Nat)) : Bool :=
  match vmreadOutcome with
  | none => false
  | some (status, value) => status == 0 && value != 0

/-! ## `VmxClearVmcsState`, `VmxLoadVmcs`, `VmxVmresume`

Each is parameterized by the status its VMX instruction returns. -/

/-- Model of `VmxClearVmcsState` (Vmx.c): VMCLEAR, log the status; on a
non-zero status log again and execute VMXOFF, returning false. -/
def vmxClearVmcsState (vmclearStatus : Nat) : Bool × List HvAct :=
  if vmclearStatus ≠ 0 then
    (false, [HvAct.vmclear, HvAct.logDebug, HvAct.logDebug, HvAct.vmxoff])
  else
    (true, [HvAct.vmclear, HvAct.logDebug])

/-- Model of `VmxLoadVmcs` (Vmx.c): VMPTRLD; on a non-zero status only a
debug log is emitted and false is returned. -/
def vmxLoadVmcs (vmptrldStatus : Nat) : Bool × List HvAct :=
  if vmptrldStatus ≠ 0 then
    (false, [HvAct.vmptrld, HvAct.logDebug])
  else
    (true, [HvAct.vmptrld])

/-- Model of `VmxVmresume` (Vmx.c). The code after the VMRESUME
instruction runs only when VMRESUME fails (`none` models a successful
resume that never returns): read `VMCS_VM_INSTRUCTION_ERROR`, execute
VMXOFF, log the error. -/
def vmxVmresume (resumeFails : Bool) : Option (List HvAct) :=
  if resumeFails then
    some [HvAct.vmresumeInstr, HvAct.vmread VMCS_VM_INSTRUCTION_ERROR,
          HvAct.vmxoff, HvAct.logErr]
  else
    none

/-! ## `VmxVirtualizeCurrentSystem` -/

structure VirtEnv where
  vmclearStatus : Nat
  vmptrldStatus : Nat
  vmlaunchFails : Bool

structure VirtResult where
  ret : Option Bool
  hasLaunched : Bool
  trace : List HvAct

/-- Model of `VmxVirtualizeCurrentSystem` (Vmx.c). `ret = none` models a
successful VMLAUNCH, after which the function never returns. On a
VMLAUNCH fall-through the core's `HasLaunched` flag is reset to false,
`VMCS_VM_INSTRUCTION_ERROR` is read, the error logged, and VMXOFF runs. -/
def vmxVirtualizeCurrentSystem (hasLaunched0 : Bool) (env : VirtEnv) : VirtResult :=
  let clearRes := vmxClearVmcsState env.vmclearStatus
  if clearRes.1 = false then
    ⟨some false, hasLaunched0, HvAct.logDebug :: clearRes.2 ++ [HvAct.logErr]⟩
  else
    let loadRes := vmxLoadVmcs env.vmptrldStatus
    if loadRes.1 = false then
      ⟨some false, hasLaunched0,
        HvAct.logDebug :: clearRes.2 ++ loadRes.2 ++ [HvAct.logErr]⟩
    else
      if env.vmlaunchFails then
        ⟨some false, false,
          HvAct.logDebug :: clearRes.2 ++ loadRes.2 ++
            [HvAct.logDebug, HvAct.setupVmcs, HvAct.logDebug, HvAct.vmlaunch,
             HvAct.vmread VMCS_VM_INSTRUCTION_ERROR, HvAct.logErr,
             HvAct.vmxoff, HvAct.logErr]⟩
      else
        ⟨none, true,
          HvAct.logDebug :: clearRes.2 ++ loadRes.2 ++
            [HvAct.logDebug, HvAct.setupVmcs, HvAct.logDebug, HvAct.vmlaunch]⟩

/-! ## `VmxVmxoff` -/

structure VmxoffEnv where
  /-- VMREAD oracle: current value of each VMCS field. -/
  vmcs : Nat → Nat
  /-- Live CR3 at entry (the host / SYSTEM CR3 while in VMX root). -/
  cr3 : Nat
  /-- Live CR4 at entry. -/
  cr4 : Nat
  /-- Status returned by the VMCLEAR issued inside `VmxClearVmcsState`. -/
  vmclearStatus : Nat

structure VmxoffOutcome where
  /-- Live CR3 after the routine. -/
  cr3 : Nat
  /-- Live CR4 after the routine. -/
  cr4 : Nat
  /-- `VCpu->VmxoffState.GuestRip`. -/
  savedGuestRip : Nat
  /-- `VCpu->VmxoffState.GuestRsp`. -/
  savedGuestRsp : Nat
  /-- `VCpu->VmxoffState.IsVmxoffExecuted`. -/
  isVmxoffExecuted : Bool
  /-- `VCpu->HasLaunched`. -/
  hasLaunched : Bool
  /-- Whether `HvRestoreRegisters` ran (restores FS, GS, GDTR, IDTR). -/
  hostRegsRestored : Bool
  trace : List HvAct

/-- Model of `VmxVmxoff` (Vmx.c): read guest CR3 from the VMCS and make it
the live CR3, save `guest RIP + exit instruction length` (64-bit wrap) and
guest RSP into the VMXOFF state, mark VMXOFF executed, restore FS/GS/GDTR/
IDTR, VMCLEAR, VMXOFF, clear `HasLaunched`, and clear CR4.VMXE. -/
def vmxVmxoff (env : VmxoffEnv) : VmxoffOutcome :=
  let guestCr3 := env.vmcs VMCS_GUEST_CR3
  let guestRip := env.vmcs VMCS_GUEST_RIP
  let guestRsp := env.vmcs VMCS_GUEST_RSP
  let exitLen := env.vmcs VMCS_VMEXIT_INSTRUCTION_LENGTH
  let clearRes := vmxClearVmcsState env.vmclearStatus
  { cr3 := guestCr3
    cr4 := env.cr4 &&& 0xFFFFFFFFFFFFDFFF
    savedGuestRip := (guestRip + exitLen) % 2 ^ 64
    savedGuestRsp := guestRsp
    isVmxoffExecuted := true
    hasLaunched := false
    hostRegsRestored := true
    trace := [HvAct.vmread VMCS_GUEST_CR3, HvAct.writecr3 guestCr3,
              HvAct.vmread VMCS_GUEST_RIP, HvAct.vmread VMCS_GUEST_RSP,
              HvAct.vmread VMCS_VMEXIT_INSTRUCTION_LENGTH,
              HvAct.restoreHostRegs] ++ clearRes.2 ++ [HvAct.vmxoff] }

/-! ## `VmxPerformVirtualizationOnAllCores` -/

structure PerfVirtEnv where
  /-- Result of `VmxCheckVmxSupport`. -/
  vmxSupported : Bool
  /-- Whether `ExAllocatePoolWithTag` for `g_EptState` succeeds. -/
  eptStateAllocOk : Bool
  /-- Result of `EptCheckFeatures`. -/
  eptFeaturesOk : Bool
  /-- Result of `EptBuildMtrrMap`. -/
  mtrrBuildOk : Bool
  /-- Result of `PoolManagerInitialize`. -/
  poolInitOk : Bool
  /-- Result of `EptLogicalProcessorInitialize`. -/
  eptLogicalInitOk : Bool

structure PerfVirtResult where
  ret : Bool
  /-- Whether `g_EptState` is still allocated (non-null) at return. -/
  eptStateAllocated : Bool
  trace : List HvAct

/-- Model of `VmxPerformVirtualizationOnAllCores` (Vmx.c): check VMX
support, allocate `g_EptState`, check EPT features, build the MTRR map,
initialize the pool manager, initialize EPT on logical processors, then
broadcast core virtualization. Every failure returns false immediately;
no path frees the already-allocated `g_EptState`. -/
def vmxPerformVirtualizationOnAllCores (env : PerfVirtEnv) : PerfVirtResult :=
  if env.vmxSupported = false then
    ⟨false, false, [HvAct.logErr]⟩
  else if env.eptStateAllocOk = false then
    ⟨false, false, [HvAct.logErr]⟩
  else
    let t0 := [HvAct.allocEptState, HvAct.checkEptFeatures]
    if env.eptFeaturesOk = false then
      ⟨false, true, t0 ++ [HvAct.logErr]⟩
    else
      let t1 := t0 ++ [HvAct.logDebug, HvAct.buildMtrrMap]
      if env.mtrrBuildOk = false then
        ⟨false, true, t1 ++ [HvAct.logErr]⟩
      else
        let t2 := t1 ++ [HvAct.logDebug, HvAct.poolManagerInit]
        if env.poolInitOk = false then
          ⟨false, true, t2 ++ [HvAct.logErr]⟩
        else
          let t3 := t2 ++ [HvAct.eptLogicalInit]
          if env.eptLogicalInitOk = false then
            ⟨false, true, t3⟩
          else
            ⟨true, true, t3 ++ [HvAct.broadcastVirtualize]⟩

/-! ## `VmxCompatibleStrlen`

The memory-safety oracle `accessOk` models `CheckAccessValidityAndSafety`
for one byte, and `mem` models the byte returned by
`MemoryMapperReadMemorySafe`. CR3 is tracked explicitly: the routine
switches to the guest CR3 and must restore the original CR3 on every
return path. The C `while (TRUE)` loop is given explicit fuel; `none`
means the fuel ran out before the loop returned. -/

def PAGE_SIZE : Nat := 4096

/-- Model of the `PAGE_ALIGN` macro (`addr & ~(PAGE_SIZE - 1)` on a 64-bit
address): align down to a page boundary. -/
def pageAlign (a : Nat) : Nat := a - a % PAGE_SIZE

/-- One result of `VmxCompatibleStrlen`: the returned length and the live
CR3 at return. -/
structure StrlenResult where
  ret : Nat
  cr3 : Nat
deriving DecidableEq, Repr

/-- Scanning loop of `VmxCompatibleStrlen`: read a byte; when it is
non-NUL advance (64-bit pointer wrap) and count; when the advanced pointer
is page-aligned re-check accessibility, returning 0 (with the original CR3
written back) on failure; when the byte is NUL return the count (with the
original CR3 written back). -/
def strlenLoop (mem : Nat → Nat) (accessOk : Nat → Bool) (origCr3 : Nat) :
    Nat → Nat → Nat → Option StrlenResult
  | 0, _, _ => none
  | fuel + 1, s, count =>
      if mem s ≠ 0 then
        let s' := (s + 1) % 2 ^ 64
        let count' := count + 1
        if s' % PAGE_SIZE = 0 then
          if accessOk s' then strlenLoop mem accessOk origCr3 fuel s' count'
          else some ⟨0, origCr3⟩
        else strlenLoop mem accessOk origCr3 fuel s' count'
      else some ⟨count, origCr3⟩

/-- Model of `VmxCompatibleStrlen` (Vmx.c): switch to the guest CR3, check
accessibility of the page-aligned target address (returning 0 and
restoring CR3 on failure), then scan bytes with the safe reader until the
first NUL, re-checking accessibility at each crossed page boundary. -/
def vmxCompatibleStrlen (mem : Nat → Nat) (accessOk : Nat → Bool)
    (origCr3 : Nat) (s : Nat) (fuel : Nat) : Option StrlenResult :=
  if accessOk (pageAlign s) = false then
    some ⟨0, origCr3⟩
  else
    strlenLoop mem accessOk origCr3 fuel s 0

/-! ## `VmxSetupVmcs` -/

structure SetupVmcsEnv where
  /-- `AsmGetEs()` and friends: live segment selector values. -/
  es : Nat
  cs : Nat
  ss : Nat
  ds : Nat
  fs : Nat
  gs : Nat
  tr : Nat
  /-- MSR values read during setup. -/
  debugCtlMsr : Nat
  fsBaseMsr : Nat
  gsBaseMsr : Nat
  sysenterCsMsr : Nat
  sysenterEipMsr : Nat
  sysenterEspMsr : Nat
  /-- Live control registers during setup. -/
  cr0 : Nat
  cr3 : Nat
  cr4 : Nat
  /-- `LayoutGetSystemDirectoryTableBase()`: the SYSTEM address-space CR3. -/
  systemDirectoryTableBase : Nat
  gdtBase : Nat
  idtBase : Nat
  gdtLimit : Nat
  idtLimit : Nat
  rflags : Nat
  /-- TR base resolved by `VmxGetSegmentDescriptor`. -/
  trBase : Nat
  /-- Adjusted control values produced by `HvAdjustControls` (external). -/
  cpuBasedControls : Nat
  secondaryControls : Nat
  pinBasedControls : Nat
  vmexitControls : Nat
  vmentryControls : Nat
  /-- Per-core buffers of the `VIRTUAL_MACHINE_STATE`. -/
  msrBitmapPhysicalAddress : Nat
  ioBitmapPhysicalAddressA : Nat
  ioBitmapPhysicalAddressB : Nat
  eptPointer : Nat
  vmmStack : Nat
  /-- `VMM_STACK_SIZE` (a build-time constant in the repository). -/
  vmmStackSize : Nat
  /-- The `GuestStack` argument. -/
  guestStack : Nat
  /-- Addresses of the assembly stubs. -/
  asmVmxRestoreState : Nat
  asmVmexitHandler : Nat
  /-- `VPID_TAG`. -/
  vpidTag : Nat

/-- Single VMCS write: point update of the field map. -/
def vmcsWrite (m : Nat → Nat) (field v : Nat) : Nat → Nat :=
  fun f => if f = field then v else m f

/-- Apply a list of VMCS writes in order (later writes win). -/
def applyVmcsWrites (m : Nat → Nat) : List (Nat × Nat) → (Nat → Nat)
  | [] => m
  | (f, v) :: rest => applyVmcsWrites (vmcsWrite m f v) rest

/-- Value written to `VMCS_HOST_RSP`: the top of the VMM stack
(`VmmStack + VMM_STACK_SIZE - 1`, with 64-bit wrap) aligned down to 16
bytes (`& ~(16 - 1)` on a 64-bit value). -/
def hostRspValue (vmmStack vmmStackSize : Nat) : Nat :=
  ((vmmStack + vmmStackSize - 1) % 2 ^ 64) &&& 0xFFFFFFFFFFFFFFF0

/-- Modelled from the spec: `HvFillGuestSelectorData` is not among the
sources; per the specification it fills the guest selector, limit, access
rights and base VMCS fields for one segment register. Its writes land only
in guest segment-state encodings, given here by the standard encoding
scheme (selector `0x800 + 2 * index`, limit `0x4800 + 2 * index`, access
rights `0x4814 + 2 * index`, base `0x6806 + 2 * index`). -/
def fillGuestSelectorWrites (idx selector limit accessRights base : Nat) :
    List (Nat × Nat) :=
  [(0x800 + 2 * idx, selector), (0x4800 + 2 * idx, limit),
   (0x4814 + 2 * idx, accessRights), (0x6806 + 2 * idx, base)]

/-- Guest segment data resolved by `HvFillGuestSelectorData` for the eight
segment registers (opaque to the claims checked here). -/
structure GuestSegmentData where
  selector : Nat
  limit : Nat
  accessRights : Nat
  base : Nat

/-- Ordered list of VMCS writes performed by `VmxSetupVmcs` (Vmx.c). -/
def vmxSetupVmcsWrites (env : SetupVmcsEnv) (segData : Nat → GuestSegmentData) :
    List (Nat × Nat) :=
  [(VMCS_HOST_ES_SELECTOR, env.es &&& 0xF8),
   (VMCS_HOST_CS_SELECTOR, env.cs &&& 0xF8),
   (VMCS_HOST_SS_SELECTOR, env.ss &&& 0xF8),
   (VMCS_HOST_DS_SELECTOR, env.ds &&& 0xF8),
   (VMCS_HOST_FS_SELECTOR, env.fs &&& 0xF8),
   (VMCS_HOST_GS_SELECTOR, env.gs &&& 0xF8),
   (VMCS_HOST_TR_SELECTOR, env.tr &&& 0xF8),
   (VMCS_GUEST_VMCS_LINK_POINTER, 2 ^ 64 - 1),
   (VMCS_GUEST_DEBUGCTL, env.debugCtlMsr &&& 0xFFFFFFFF),
   (VMCS_GUEST_DEBUGCTL_HIGH, env.debugCtlMsr >>> 32),
   (VMCS_CTRL_TSC_OFFSET, 0),
   (VMCS_CTRL_PAGEFAULT_ERROR_CODE_MASK, 0),
   (VMCS_CTRL_PAGEFAULT_ERROR_CODE_MATCH, 0),
   (VMCS_CTRL_VMEXIT_MSR_STORE_COUNT, 0),
   (VMCS_CTRL_VMEXIT_MSR_LOAD_COUNT, 0),
   (VMCS_CTRL_VMENTRY_MSR_LOAD_COUNT, 0),
   (VMCS_CTRL_VMENTRY_INTERRUPTION_INFORMATION_FIELD, 0)] ++
  (fillGuestSelectorWrites 0 (segData 0).selector (segData 0).limit
      (segData 0).accessRights (segData 0).base) ++
  (fillGuestSelectorWrites 1 (segData 1).selector (segData 1).limit
      (segData 1).accessRights (segData 1).base) ++
  (fillGuestSelectorWrites 2 (segData 2).selector (segData 2).limit
      (segData 2).accessRights (segData 2).base) ++
  (fillGuestSelectorWrites 3 (segData 3).selector (segData 3).limit
      (segData 3).accessRights (segData 3).base) ++
  (fillGuestSelectorWrites 4 (segData 4).selector (segData 4).limit
      (segData 4).accessRights (segData 4).base) ++
  (fillGuestSelectorWrites 5 (segData 5).selector (segData 5).limit
      (segData 5).accessRights (segData 5).base) ++
  (fillGuestSelectorWrites 6 (segData 6).selector (segData 6).limit
      (segData 6).accessRights (segData 6).base) ++
  (fillGuestSelectorWrites 7 (segData 7).selector (segData 7).limit
      (segData 7).accessRights (segData 7).base) ++
  [(VMCS_GUEST_FS_BASE, env.fsBaseMsr),
   (VMCS_GUEST_GS_BASE, env.gsBaseMsr),
   (VMCS_CTRL_PROCESSOR_BASED_VM_EXECUTION_CONTROLS, env.cpuBasedControls),
   (VMCS_CTRL_SECONDARY_PROCESSOR_BASED_VM_EXECUTION_CONTROLS, env.secondaryControls),
   (VMCS_CTRL_PIN_BASED_VM_EXECUTION_CONTROLS, env.pinBasedControls),
   (VMCS_CTRL_PRIMARY_VMEXIT_CONTROLS, env.vmexitControls),
   (VMCS_CTRL_VMENTRY_CONTROLS, env.vmentryControls),
   (VMCS_CTRL_CR0_GUEST_HOST_MASK, 0),
   (VMCS_CTRL_CR4_GUEST_HOST_MASK, 0),
   (VMCS_CTRL_CR0_READ_SHADOW, 0),
   (VMCS_CTRL_CR4_READ_SHADOW, 0),
   (VMCS_GUEST_CR0, env.cr0),
   (VMCS_GUEST_CR3, env.cr3),
   (VMCS_GUEST_CR4, env.cr4),
   (VMCS_GUEST_DR7, 0x400),
   (VMCS_HOST_CR0, env.cr0),
   (VMCS_HOST_CR4, env.cr4),
   (VMCS_HOST_CR3, env.systemDirectoryTableBase),
   (VMCS_GUEST_GDTR_BASE, env.gdtBase),
   (VMCS_GUEST_IDTR_BASE, env.idtBase),
   (VMCS_GUEST_GDTR_LIMIT, env.gdtLimit),
   (VMCS_GUEST_IDTR_LIMIT, env.idtLimit),
   (VMCS_GUEST_RFLAGS, env.rflags),
   (VMCS_GUEST_SYSENTER_CS, env.sysenterCsMsr),
   (VMCS_GUEST_SYSENTER_EIP, env.sysenterEipMsr),
   (VMCS_GUEST_SYSENTER_ESP, env.sysenterEspMsr),
   (VMCS_HOST_TR_BASE, env.trBase),
   (VMCS_HOST_FS_BASE, env.fsBaseMsr),
   (VMCS_HOST_GS_BASE, env.gsBaseMsr),
   (VMCS_HOST_GDTR_BASE, env.gdtBase),
   (VMCS_HOST_IDTR_BASE, env.idtBase),
   (VMCS_HOST_SYSENTER_CS, env.sysenterCsMsr),
   (VMCS_HOST_SYSENTER_EIP, env.sysenterEipMsr),
   (VMCS_HOST_SYSENTER_ESP, env.sysenterEspMsr),
   (VMCS_CTRL_MSR_BITMAP_ADDRESS, env.msrBitmapPhysicalAddress),
   (VMCS_CTRL_IO_BITMAP_A_ADDRESS, env.ioBitmapPhysicalAddressA),
   (VMCS_CTRL_IO_BITMAP_B_ADDRESS, env.ioBitmapPhysicalAddressB),
   (VMCS_CTRL_EPT_POINTER, env.eptPointer),
   (VIRTUAL_PROCESSOR_ID, env.vpidTag),
   (VMCS_GUEST_RSP, env.guestStack),
   (VMCS_GUEST_RIP, env.asmVmxRestoreState),
   (VMCS_HOST_RSP, hostRspValue env.vmmStack env.vmmStackSize),
   (VMCS_HOST_RIP, env.asmVmexitHandler)]

/-- Model of `VmxSetupVmcs` (Vmx.c): final VMCS field map after all
writes. -/
def vmxSetupVmcs (env : SetupVmcsEnv) (segData : Nat → GuestSegmentData)
    (vmcs0 : Nat → Nat) : Nat → Nat :=
  applyVmcsWrites vmcs0 (vmxSetupVmcsWrites env segData)

/-! ## EFER syscall hook configuration -/

/-- Modelled from the spec and the HyperDbg SDK headers (the enum
definition is not among the sources): the two known members of
`DEBUGGER_EVENT_SYSCALL_SYSRET_TYPE`. Only their distinctness matters to
the claims. -/
def DEBUGGER_EVENT_SYSCALL_SYSRET_SAFE_ACCESS_MEMORY : Nat := 0

def DEBUGGER_EVENT_SYSCALL_SYSRET_HANDLE_ALL_UD : Nat := 1

structure SyscallCfgResult where
  /-- `g_IsUnsafeSyscallOrSysretHandling` after the call. -/
  unsafeFlag : Bool
  trace : List HvAct

/-- Model of `ConfigureEnableEferSyscallEventsOnAllProcessors`
(Configuration.c): set the global unsafe-handling flag for the two known
hook types, leave it unchanged otherwise, then broadcast. -/
def configureEnableEferSyscallEventsOnAllProcessors (syscallHookType : Nat)
    (flag0 : Bool) : SyscallCfgResult :=
  let flag :=
    if syscallHookType = DEBUGGER_EVENT_SYSCALL_SYSRET_HANDLE_ALL_UD then true
    else if syscallHookType = DEBUGGER_EVENT_SYSCALL_SYSRET_SAFE_ACCESS_MEMORY then false
    else flag0
  ⟨flag, [HvAct.broadcastEnableSyscallHook]⟩

/-- Model of `ConfigureEnableEferSyscallHookOnSingleCore`
(Configuration.c): same flag update, then dispatch the enable task to the
target core via a DPC. -/
def configureEnableEferSyscallHookOnSingleCore (targetCoreId : Nat)
    (syscallHookType : Nat) (flag0 : Bool) : SyscallCfgResult :=
  let flag :=
    if syscallHookType = DEBUGGER_EVENT_SYSCALL_SYSRET_HANDLE_ALL_UD then true
    else if syscallHookType = DEBUGGER_EVENT_SYSCALL_SYSRET_SAFE_ACCESS_MEMORY then false
    else flag0
  ⟨flag, [HvAct.dpcSingleCore targetCoreId]⟩

/-! ## Concrete environments used by witnesses and counterexamples -/

/-- Environment in which `EptCheckFeatures` fails after the EPT state was
allocated successfully. -/
def perfVirtEnvCex : PerfVirtEnv :=
  { vmxSupported := true, eptStateAllocOk := true, eptFeaturesOk := false,
    mtrrBuildOk := true, poolInitOk := true, eptLogicalInitOk := true }

/-- Concrete `VmxVmxoff` environment: every VMCS field reads 7, live CR3
is 3, live CR4 has only the VMXE bit set, VMCLEAR succeeds. -/
def vmxoffEnv0 : VmxoffEnv :=
  { vmcs := fun _ => 7, cr3 := 3, cr4 := 0x2000, vmclearStatus := 0 }

/-- Concrete `VmxVirtualizeCurrentSystem` environment in which VMCLEAR and
VMPTRLD succeed and VMLAUNCH falls through. -/
def virtEnvLaunchFail : VirtEnv :=
  { vmclearStatus := 0, vmptrldStatus := 0, vmlaunchFails := true }

/-- Concrete `VmxSetupVmcs` environment: live CR3 is 1 while the SYSTEM
directory table base is 2; the VMM stack is 4 KiB-based with a 64 KiB
size. -/
def setupVmcsEnv0 : SetupVmcsEnv :=
  { es := 0x2B, cs := 0x33, ss := 0x2B, ds := 0x2B, fs := 0x53, gs := 0x2B,
    tr := 0x40,
    debugCtlMsr := 0, fsBaseMsr := 11, gsBaseMsr := 12,
    sysenterCsMsr := 13, sysenterEipMsr := 14, sysenterEspMsr := 15,
    cr0 := 16, cr3 := 1, cr4 := 17,
    systemDirectoryTableBase := 2,
    gdtBase := 18, idtBase := 19, gdtLimit := 20, idtLimit := 21,
    rflags := 22, trBase := 23,
    cpuBasedControls := 24, secondaryControls := 25, pinBasedControls := 26,
    vmexitControls := 27, vmentryControls := 28,
    msrBitmapPhysicalAddress := 29, ioBitmapPhysicalAddressA := 30,
    ioBitmapPhysicalAddressB := 31, eptPointer := 32,
    vmmStack := 0x1000, vmmStackSize := 0x10000, guestStack := 33,
    asmVmxRestoreState := 34, asmVmexitHandler := 35, vpidTag := 1 }

/-- Concrete guest segment data for the eight segment registers. -/
def segData0 : Nat → GuestSegmentData := fun idx =>
  { selector := 100 + idx, limit := 200 + idx,
    accessRights := 300 + idx, base := 400 + idx }

end HyperDbg

namespace HyperDbg

/-! ## Claim theorems -/

/-- C10: when the global guest-state array is not initialized,
`VmxGetCurrentExecutionMode` returns the non-root mode; when it is
initialized, the result tracks the current core's `IsOnVmxRootMode`
flag exactly. -/
theorem C10_executionMode_null_guarded :
    (∀ core, vmxGetCurrentExecutionMode none core = VmxExecutionMode.nonRoot) ∧
    (∀ gs core, vmxGetCurrentExecutionMode (some gs) core =
      if (gs core).isOnVmxRootMode then VmxExecutionMode.root
      else VmxExecutionMode.nonRoot) :=
  ⟨fun _ => rfl, fun _ _ => rfl⟩

/-- C5: `VmxCheckIsOnVmxRoot` returns true exactly when the guarded VMREAD
of the VMCS link pointer completes with a success status and a non-zero
value; a faulting or failing VMREAD yields false. The first conjunct
compares the model of the source with a definition written from the
specification's words; the second characterizes the true case. -/
theorem C5_vmxCheckIsOnVmxRoot_characterized :
    (∀ oc, vmxCheckIsOnVmxRoot oc = isVmxRootSpec oc) ∧
    vmxCheckIsOnVmxRoot none = false ∧
    (∀ s v, vmxCheckIsOnVmxRoot (some (s, v)) = true ↔ (s = 0 ∧ v ≠ 0)) := by
  refine ⟨fun oc => ?_, rfl, fun s v => ?_⟩
  · rcases oc with _ | ⟨s, v⟩
    · rfl
    · by_cases hs : s = 0 <;> by_cases hv : v = 0 <;>
        simp [vmxCheckIsOnVmxRoot, isVmxRootSpec, hs, hv]
  · by_cases hs : s = 0 <;> by_cases hv : v = 0 <;>
      simp [vmxCheckIsOnVmxRoot, hs, hv]

/-- C4: `VmxCheckVmxSupport` returns true exactly when CPUID.1:ECX[5] is
set and IA32_FEATURE_CONTROL.EnableVmxOutsideSmx is set, and no path
performs any state write (in particular no write to
IA32_FEATURE_CONTROL). -/
theorem C4_vmxCheckVmxSupport_iff_and_no_writes :
    ∀ env : VmxSupportEnv,
      (vmxCheckVmxSupport env).1 =
        (env.cpuid1Ecx.testBit 5 && env.enableVmxOutsideSmx) ∧
      ∀ a ∈ (vmxCheckVmxSupport env).2, a.isStateWrite = false := by
  intro env
  rcases env with ⟨ecx, evos⟩
  cases h5 : ecx.testBit 5 <;> cases evos <;>
    simp [vmxCheckVmxSupport, h5, HvAct.isStateWrite]

/-- C5 witness: a successful VMREAD returning value 5 makes the check
true. -/
theorem C5_witness :
    vmxCheckIsOnVmxRoot (some (0, 5)) = isVmxRootSpec (some (0, 5)) ∧
    (vmxCheckIsOnVmxRoot (some (0, 5)) = true ↔ ((0 : Nat) = 0 ∧ (5 : Nat) ≠ 0)) :=
  ⟨C5_vmxCheckIsOnVmxRoot_characterized.1 (some (0, 5)),
   C5_vmxCheckIsOnVmxRoot_characterized.2.2 0 5⟩

/-- C4 witness: with CPUID.1:ECX = 32 (bit 5 set) and
`EnableVmxOutsideSmx` set, the support check succeeds and no state write
occurs. -/
theorem C4_witness :
    (vmxCheckVmxSupport ⟨32, true⟩).1 = ((32 : Nat).testBit 5 && true) ∧
    ∀ a ∈ (vmxCheckVmxSupport ⟨32, true⟩).2, a.isStateWrite = false :=
  C4_vmxCheckVmxSupport_iff_and_no_writes ⟨32, true⟩

/-- C9: for a `SyscallHookType` other than the two known values, both
`ConfigureEnableEferSyscallEventsOnAllProcessors` and
`ConfigureEnableEferSyscallHookOnSingleCore` leave
`g_IsUnsafeSyscallOrSysretHandling` unchanged while still broadcasting /
dispatching the enable-syscall-hook task; for the known values the flag is
set to true exactly for `HandleAllUD`. -/
theorem C9_syscallHookType_flag_frame :
    ∀ (ty : Nat) (flag0 : Bool) (coreId : Nat),
      (ty ≠ DEBUGGER_EVENT_SYSCALL_SYSRET_HANDLE_ALL_UD →
        ty ≠ DEBUGGER_EVENT_SYSCALL_SYSRET_SAFE_ACCESS_MEMORY →
        (configureEnableEferSyscallEventsOnAllProcessors ty flag0).unsafeFlag = flag0 ∧
        (configureEnableEferSyscallHookOnSingleCore coreId ty flag0).unsafeFlag = flag0) ∧
      (configureEnableEferSyscallEventsOnAllProcessors ty flag0).trace =
        [HvAct.broadcastEnableSyscallHook] ∧
      (configureEnableEferSyscallHookOnSingleCore coreId ty flag0).trace =
        [HvAct.dpcSingleCore coreId] ∧
      (configureEnableEferSyscallEventsOnAllProcessors
        DEBUGGER_EVENT_SYSCALL_SYSRET_HANDLE_ALL_UD flag0).unsafeFlag = true ∧
      (configureEnableEferSyscallEventsOnAllProcessors
        DEBUGGER_EVENT_SYSCALL_SYSRET_SAFE_ACCESS_MEMORY flag0).unsafeFlag = false ∧
      (configureEnableEferSyscallHookOnSingleCore coreId
        DEBUGGER_EVENT_SYSCALL_SYSRET_HANDLE_ALL_UD flag0).unsafeFlag = true ∧
      (configureEnableEferSyscallHookOnSingleCore coreId
        DEBUGGER_EVENT_SYSCALL_SYSRET_SAFE_ACCESS_MEMORY flag0).unsafeFlag = false := by
  intro ty flag0 coreId
  refine ⟨fun h1 h2 => ?_, rfl, rfl, ?_, ?_, ?_, ?_⟩
  · constructor <;>
      simp [configureEnableEferSyscallEventsOnAllProcessors,
            configureEnableEferSyscallHookOnSingleCore, h1, h2]
  all_goals
    simp [configureEnableEferSyscallEventsOnAllProcessors,
          configureEnableEferSyscallHookOnSingleCore,
          DEBUGGER_EVENT_SYSCALL_SYSRET_HANDLE_ALL_UD,
          DEBUGGER_EVENT_SYSCALL_SYSRET_SAFE_ACCESS_MEMORY]

/-- C9 witness: at the unknown hook type 5, the flag (initially true)
stays true for both routines. -/
theorem C9_witness :
    (configureEnableEferSyscallEventsOnAllProcessors 5 true).unsafeFlag = true ∧
    (configureEnableEferSyscallHookOnSingleCore 0 5 true).unsafeFlag = true :=
  (C9_syscallHookType_flag_frame 5 true 0).1 (by decide) (by decide)

/-- C1 counterexample: with a failing VMPTRLD (status 1), `VmxLoadVmcs`
returns false but its trace holds neither a read of
`VMCS_VM_INSTRUCTION_ERROR` (0x4400) nor a VMXOFF, and the failing
VMCLEAR path of `VmxClearVmcsState` never reads 0x4400 — contradicting
the claim that every failing instruction in the set leads to a 0x4400
read, a log of it, and VMXOFF. -/
theorem C1_counterexample :
    (vmxLoadVmcs 1).1 = false ∧
    HvAct.vmread VMCS_VM_INSTRUCTION_ERROR ∉ (vmxLoadVmcs 1).2 ∧
    HvAct.vmxoff ∉ (vmxLoadVmcs 1).2 ∧
    (vmxClearVmcsState 1).1 = false ∧
    HvAct.vmread VMCS_VM_INSTRUCTION_ERROR ∉ (vmxClearVmcsState 1).2 := by
  decide

/-- C1 amended: VMLAUNCH and VMRESUME failures read 0x4400, log, and
execute VMXOFF; a VMCLEAR failure logs and executes VMXOFF but does not
read 0x4400; a VMPTRLD failure only logs, with neither a 0x4400 read nor
VMXOFF. -/
theorem C1_amended_vmx_failure_handling :
    (∀ st : Nat, st ≠ 0 →
      (vmxClearVmcsState st).1 = false ∧
      HvAct.vmxoff ∈ (vmxClearVmcsState st).2 ∧
      HvAct.logDebug ∈ (vmxClearVmcsState st).2 ∧
      HvAct.vmread VMCS_VM_INSTRUCTION_ERROR ∉ (vmxClearVmcsState st).2) ∧
    (∀ st : Nat, st ≠ 0 →
      (vmxLoadVmcs st).1 = false ∧
      HvAct.logDebug ∈ (vmxLoadVmcs st).2 ∧
      HvAct.vmxoff ∉ (vmxLoadVmcs st).2 ∧
      HvAct.vmread VMCS_VM_INSTRUCTION_ERROR ∉ (vmxLoadVmcs st).2) ∧
    (∀ t, vmxVmresume true = some t →
      HvAct.vmread VMCS_VM_INSTRUCTION_ERROR ∈ t ∧
      HvAct.vmxoff ∈ t ∧ HvAct.logErr ∈ t) ∧
    (∀ (h0 : Bool) (env : VirtEnv),
      env.vmclearStatus = 0 → env.vmptrldStatus = 0 → env.vmlaunchFails = true →
      (vmxVirtualizeCurrentSystem h0 env).ret = some false ∧
      HvAct.vmread VMCS_VM_INSTRUCTION_ERROR ∈ (vmxVirtualizeCurrentSystem h0 env).trace ∧
      HvAct.logErr ∈ (vmxVirtualizeCurrentSystem h0 env).trace ∧
      HvAct.vmxoff ∈ (vmxVirtualizeCurrentSystem h0 env).trace) := by
  refine ⟨fun st hst => ?_, fun st hst => ?_, fun t ht => ?_, fun h0 env h1 h2 h3 => ?_⟩
  · simp [vmxClearVmcsState, hst]
  · simp [vmxLoadVmcs, hst]
  · simp [vmxVmresume] at ht
    subst ht
    decide
  · rcases env with ⟨a, b, c⟩
    simp only at h1 h2 h3
    subst h1; subst h2; subst h3
    cases h0 <;> decide

/-- C1 amended witness: concrete failing statuses exercise each branch. -/
theorem C1_amended_witness :
    ((vmxClearVmcsState 2).1 = false ∧
      HvAct.vmxoff ∈ (vmxClearVmcsState 2).2 ∧
      HvAct.logDebug ∈ (vmxClearVmcsState 2).2 ∧
      HvAct.vmread VMCS_VM_INSTRUCTION_ERROR ∉ (vmxClearVmcsState 2).2) ∧
    ((vmxLoadVmcs 2).1 = false ∧
      HvAct.logDebug ∈ (vmxLoadVmcs 2).2 ∧
      HvAct.vmxoff ∉ (vmxLoadVmcs 2).2 ∧
      HvAct.vmread VMCS_VM_INSTRUCTION_ERROR ∉ (vmxLoadVmcs 2).2) ∧
    ((vmxVirtualizeCurrentSystem false virtEnvLaunchFail).ret = some false ∧
      HvAct.vmread VMCS_VM_INSTRUCTION_ERROR ∈
        (vmxVirtualizeCurrentSystem false virtEnvLaunchFail).trace ∧
      HvAct.logErr ∈ (vmxVirtualizeCurrentSystem false virtEnvLaunchFail).trace ∧
      HvAct.vmxoff ∈ (vmxVirtualizeCurrentSystem false virtEnvLaunchFail).trace) :=
  ⟨C1_amended_vmx_failure_handling.1 2 (by decide),
   C1_amended_vmx_failure_handling.2.1 2 (by decide),
   C1_amended_vmx_failure_handling.2.2.2 false virtEnvLaunchFail rfl rfl rfl⟩

/-- C3: when VMLAUNCH fails in `VmxVirtualizeCurrentSystem` (after a
successful VMCLEAR and VMPTRLD), the function reads
`VMCS_VM_INSTRUCTION_ERROR`, logs the error, executes VMXOFF, leaves the
core's `HasLaunched` flag false, and returns false. -/
theorem C3_vmlaunch_failure_path :
    ∀ (h0 : Bool) (env : VirtEnv),
      env.vmclearStatus = 0 → env.vmptrldStatus = 0 → env.vmlaunchFails = true →
      (vmxVirtualizeCurrentSystem h0 env).ret = some false ∧
      (vmxVirtualizeCurrentSystem h0 env).hasLaunched = false ∧
      HvAct.vmread VMCS_VM_INSTRUCTION_ERROR ∈ (vmxVirtualizeCurrentSystem h0 env).trace ∧
      HvAct.logErr ∈ (vmxVirtualizeCurrentSystem h0 env).trace ∧
      HvAct.vmxoff ∈ (vmxVirtualizeCurrentSystem h0 env).trace := by
  intro h0 env h1 h2 h3
  rcases env with ⟨a, b, c⟩
  simp only at h1 h2 h3
  subst h1; subst h2; subst h3
  cases h0 <;> decide

/-- C3 witness: a core that had launched (`HasLaunched` initially true)
ends with the flag false and the failure actions in its trace. -/
theorem C3_witness :
    (vmxVirtualizeCurrentSystem true virtEnvLaunchFail).ret = some false ∧
    (vmxVirtualizeCurrentSystem true virtEnvLaunchFail).hasLaunched = false ∧
    HvAct.vmread VMCS_VM_INSTRUCTION_ERROR ∈
      (vmxVirtualizeCurrentSystem true virtEnvLaunchFail).trace ∧
    HvAct.logErr ∈ (vmxVirtualizeCurrentSystem true virtEnvLaunchFail).trace ∧
    HvAct.vmxoff ∈ (vmxVirtualizeCurrentSystem true virtEnvLaunchFail).trace :=
  C3_vmlaunch_failure_path true virtEnvLaunchFail rfl rfl rfl

/-- C2: after `VmxVmxoff`, the saved VMXOFF state holds
`guest RIP + exit instruction length` and the guest RSP, the live CR3 is
the guest CR3 read from the VMCS (hence not the SYSTEM CR3 whenever the
two differ), FS/GS/GDTR/IDTR are restored, CR4.VMXE (bit 13) is cleared,
and `HasLaunched` is false. -/
theorem C2_vmxVmxoff_state :
    ∀ (env : VmxoffEnv) (sysCr3 : Nat),
      sysCr3 ≠ env.vmcs VMCS_GUEST_CR3 →
      (vmxVmxoff env).savedGuestRip =
        (env.vmcs VMCS_GUEST_RIP + env.vmcs VMCS_VMEXIT_INSTRUCTION_LENGTH) % 2 ^ 64 ∧
      (vmxVmxoff env).savedGuestRsp = env.vmcs VMCS_GUEST_RSP ∧
      (vmxVmxoff env).cr3 = env.vmcs VMCS_GUEST_CR3 ∧
      (vmxVmxoff env).cr3 ≠ sysCr3 ∧
      (vmxVmxoff env).hostRegsRestored = true ∧
      (vmxVmxoff env).cr4.testBit 13 = false ∧
      (vmxVmxoff env).hasLaunched = false ∧
      (vmxVmxoff env).isVmxoffExecuted = true := by
  intro env sysCr3 hne
  refine ⟨rfl, rfl, rfl, fun h => hne h.symm, rfl, ?_, rfl, rfl⟩
  show (env.cr4 &&& 0xFFFFFFFFFFFFDFFF).testBit 13 = false
  rw [Nat.testBit_and]
  have hmask : Nat.testBit 0xFFFFFFFFFFFFDFFF 13 = false := by decide
  simp [hmask]

/-- C2 witness: with every VMCS field reading 7, live CR4 = 0x2000 and a
SYSTEM CR3 of 5, the saved state and the final registers are as stated. -/
theorem C2_witness :
    (vmxVmxoff vmxoffEnv0).savedGuestRip =
      (vmxoffEnv0.vmcs VMCS_GUEST_RIP +
        vmxoffEnv0.vmcs VMCS_VMEXIT_INSTRUCTION_LENGTH) % 2 ^ 64 ∧
    (vmxVmxoff vmxoffEnv0).savedGuestRsp = vmxoffEnv0.vmcs VMCS_GUEST_RSP ∧
    (vmxVmxoff vmxoffEnv0).cr3 = vmxoffEnv0.vmcs VMCS_GUEST_CR3 ∧
    (vmxVmxoff vmxoffEnv0).cr3 ≠ 5 ∧
    (vmxVmxoff vmxoffEnv0).hostRegsRestored = true ∧
    (vmxVmxoff vmxoffEnv0).cr4.testBit 13 = false ∧
    (vmxVmxoff vmxoffEnv0).hasLaunched = false ∧
    (vmxVmxoff vmxoffEnv0).isVmxoffExecuted = true :=
  C2_vmxVmxoff_state vmxoffEnv0 5 (by decide)

/-- C6 counterexample: when the EPT feature check fails after the EPT
state was allocated, `VmxPerformVirtualizationOnAllCores` returns false
and skips the later steps, but the allocated EPT state is NOT freed (no
free action appears and `g_EptState` remains allocated) — contradicting
the claim that all partial allocations are freed before returning. -/
theorem C6_counterexample :
    (vmxPerformVirtualizationOnAllCores perfVirtEnvCex).ret = false ∧
    (vmxPerformVirtualizationOnAllCores perfVirtEnvCex).eptStateAllocated = true ∧
    HvAct.allocEptState ∈ (vmxPerformVirtualizationOnAllCores perfVirtEnvCex).trace ∧
    HvAct.freeEptState ∉ (vmxPerformVirtualizationOnAllCores perfVirtEnvCex).trace ∧
    HvAct.poolManagerInit ∉ (vmxPerformVirtualizationOnAllCores perfVirtEnvCex).trace := by
  decide

/-- C6 amended: when any step after the successful EPT state allocation
fails (EPT feature check, MTRR map build, pool-manager initialization, or
EPT initialization), the function returns false and later initialization
steps do not run, but the allocated EPT state is not freed — it remains
allocated at return, and no path emits a free. -/
theorem C6_amended_failure_paths :
    ∀ env : PerfVirtEnv, env.vmxSupported = true → env.eptStateAllocOk = true →
      (env.eptFeaturesOk = false →
        (vmxPerformVirtualizationOnAllCores env).ret = false ∧
        (vmxPerformVirtualizationOnAllCores env).eptStateAllocated = true ∧
        HvAct.freeEptState ∉ (vmxPerformVirtualizationOnAllCores env).trace ∧
        HvAct.buildMtrrMap ∉ (vmxPerformVirtualizationOnAllCores env).trace ∧
        HvAct.poolManagerInit ∉ (vmxPerformVirtualizationOnAllCores env).trace ∧
        HvAct.eptLogicalInit ∉ (vmxPerformVirtualizationOnAllCores env).trace ∧
        HvAct.broadcastVirtualize ∉ (vmxPerformVirtualizationOnAllCores env).trace) ∧
      (env.eptFeaturesOk = true → env.mtrrBuildOk = false →
        (vmxPerformVirtualizationOnAllCores env).ret = false ∧
        (vmxPerformVirtualizationOnAllCores env).eptStateAllocated = true ∧
        HvAct.freeEptState ∉ (vmxPerformVirtualizationOnAllCores env).trace ∧
        HvAct.poolManagerInit ∉ (vmxPerformVirtualizationOnAllCores env).trace ∧
        HvAct.eptLogicalInit ∉ (vmxPerformVirtualizationOnAllCores env).trace ∧
        HvAct.broadcastVirtualize ∉ (vmxPerformVirtualizationOnAllCores env).trace) ∧
      (env.eptFeaturesOk = true → env.mtrrBuildOk = true → env.poolInitOk = false →
        (vmxPerformVirtualizationOnAllCores env).ret = false ∧
        (vmxPerformVirtualizationOnAllCores env).eptStateAllocated = true ∧
        HvAct.freeEptState ∉ (vmxPerformVirtualizationOnAllCores env).trace ∧
        HvAct.eptLogicalInit ∉ (vmxPerformVirtualizationOnAllCores env).trace ∧
        HvAct.broadcastVirtualize ∉ (vmxPerformVirtualizationOnAllCores env).trace) ∧
      (env.eptFeaturesOk = true → env.mtrrBuildOk = true → env.poolInitOk = true →
        env.eptLogicalInitOk = false →
        (vmxPerformVirtualizationOnAllCores env).ret = false ∧
        (vmxPerformVirtualizationOnAllCores env).eptStateAllocated = true ∧
        HvAct.freeEptState ∉ (vmxPerformVirtualizationOnAllCores env).trace ∧
        HvAct.broadcastVirtualize ∉ (vmxPerformVirtualizationOnAllCores env).trace) := by
  intro env h1 h2
  rcases env with ⟨s, a, f, m, p, e⟩
  replace h1 : s = true := h1
  replace h2 : a = true := h2
  subst h1; subst h2
  cases f <;> cases m <;> cases p <;> cases e <;>
    refine ⟨fun hf => ?_, fun hf hm => ?_, fun hf hm hp => ?_,
            fun hf hm hp he => ?_⟩ <;>
      first
        | exact absurd ‹true = false› (fun h => Bool.noConfusion h)
        | exact absurd ‹false = true› (fun h => Bool.noConfusion h)
        | decide

/-- C6 amended witness: the EPT-feature-check failure environment. -/
theorem C6_amended_witness :
    (vmxPerformVirtualizationOnAllCores perfVirtEnvCex).ret = false ∧
    (vmxPerformVirtualizationOnAllCores perfVirtEnvCex).eptStateAllocated = true ∧
    HvAct.freeEptState ∉ (vmxPerformVirtualizationOnAllCores perfVirtEnvCex).trace ∧
    HvAct.buildMtrrMap ∉ (vmxPerformVirtualizationOnAllCores perfVirtEnvCex).trace ∧
    HvAct.poolManagerInit ∉ (vmxPerformVirtualizationOnAllCores perfVirtEnvCex).trace ∧
    HvAct.eptLogicalInit ∉ (vmxPerformVirtualizationOnAllCores perfVirtEnvCex).trace ∧
    HvAct.broadcastVirtualize ∉ (vmxPerformVirtualizationOnAllCores perfVirtEnvCex).trace :=
  (C6_amended_failure_paths perfVirtEnvCex rfl rfl).1 rfl

/-- Helper: masking a 64-bit value with `~15` (that is,
`0xFFFFFFFFFFFFFFF0`) aligns it down to a multiple of 16. -/
theorem land_align16 (x : Nat) (hx : x < 2 ^ 64) :
    x &&& 0xFFFFFFFFFFFFFFF0 = x / 16 * 16 := by
  have h16 : x / 16 * 16 = (x >>> 4) <<< 4 := by
    rw [Nat.shiftRight_eq_div_pow, Nat.shiftLeft_eq]
  have hmask : (0xFFFFFFFFFFFFFFF0 : Nat) = (2 ^ 60 - 1) <<< 4 := by decide
  rw [h16, hmask]
  apply Nat.eq_of_testBit_eq
  intro i
  rw [Nat.testBit_and, Nat.testBit_shiftLeft, Nat.testBit_shiftLeft,
    Nat.testBit_shiftRight, Nat.testBit_two_pow_sub_one]
  by_cases h4 : 4 ≤ i
  · have h44 : 4 + (i - 4) = i := by omega
    rw [h44]
    by_cases h64 : i < 64
    · have h60 : i - 4 < 60 := by omega
      simp [h4, h60]
    · have hbit : x.testBit i = false :=
        Nat.testBit_lt_two_pow
          (lt_of_lt_of_le hx (Nat.pow_le_pow_right (by norm_num) (by omega)))
      simp [hbit]
  · simp [h4]

/-- Helper: the field lookups of `vmxSetupVmcs` needed by claim C8. -/
theorem vmxSetupVmcs_lookups (env : SetupVmcsEnv)
    (segData : Nat → GuestSegmentData) (vmcs0 : Nat → Nat) :
    (vmxSetupVmcs env segData vmcs0) VMCS_HOST_ES_SELECTOR = env.es &&& 0xF8 ∧
    (vmxSetupVmcs env segData vmcs0) VMCS_HOST_CS_SELECTOR = env.cs &&& 0xF8 ∧
    (vmxSetupVmcs env segData vmcs0) VMCS_HOST_SS_SELECTOR = env.ss &&& 0xF8 ∧
    (vmxSetupVmcs env segData vmcs0) VMCS_HOST_DS_SELECTOR = env.ds &&& 0xF8 ∧
    (vmxSetupVmcs env segData vmcs0) VMCS_HOST_FS_SELECTOR = env.fs &&& 0xF8 ∧
    (vmxSetupVmcs env segData vmcs0) VMCS_HOST_GS_SELECTOR = env.gs &&& 0xF8 ∧
    (vmxSetupVmcs env segData vmcs0) VMCS_HOST_TR_SELECTOR = env.tr &&& 0xF8 ∧
    (vmxSetupVmcs env segData vmcs0) VMCS_HOST_CR3 = env.systemDirectoryTableBase ∧
    (vmxSetupVmcs env segData vmcs0) VMCS_HOST_RSP =
      hostRspValue env.vmmStack env.vmmStackSize ∧
    (vmxSetupVmcs env segData vmcs0) VMCS_HOST_RIP = env.asmVmexitHandler ∧
    (vmxSetupVmcs env segData vmcs0) VMCS_GUEST_VMCS_LINK_POINTER = 2 ^ 64 - 1 ∧
    (vmxSetupVmcs env segData vmcs0) VMCS_GUEST_DR7 = 0x400 := by
  simp [vmxSetupVmcs, vmxSetupVmcsWrites, fillGuestSelectorWrites, applyVmcsWrites,
    vmcsWrite,
    VMCS_HOST_ES_SELECTOR, VMCS_HOST_CS_SELECTOR, VMCS_HOST_SS_SELECTOR,
    VMCS_HOST_DS_SELECTOR, VMCS_HOST_FS_SELECTOR, VMCS_HOST_GS_SELECTOR,
    VMCS_HOST_TR_SELECTOR, VMCS_GUEST_VMCS_LINK_POINTER, VMCS_GUEST_DEBUGCTL,
    VMCS_GUEST_DEBUGCTL_HIGH, VMCS_CTRL_TSC_OFFSET,
    VMCS_CTRL_PAGEFAULT_ERROR_CODE_MASK, VMCS_CTRL_PAGEFAULT_ERROR_CODE_MATCH,
    VMCS_CTRL_VMEXIT_MSR_STORE_COUNT, VMCS_CTRL_VMEXIT_MSR_LOAD_COUNT,
    VMCS_CTRL_VMENTRY_MSR_LOAD_COUNT,
    VMCS_CTRL_VMENTRY_INTERRUPTION_INFORMATION_FIELD,
    VMCS_GUEST_FS_BASE, VMCS_GUEST_GS_BASE,
    VMCS_CTRL_PROCESSOR_BASED_VM_EXECUTION_CONTROLS,
    VMCS_CTRL_SECONDARY_PROCESSOR_BASED_VM_EXECUTION_CONTROLS,
    VMCS_CTRL_PIN_BASED_VM_EXECUTION_CONTROLS, VMCS_CTRL_PRIMARY_VMEXIT_CONTROLS,
    VMCS_CTRL_VMENTRY_CONTROLS, VMCS_CTRL_CR0_GUEST_HOST_MASK,
    VMCS_CTRL_CR4_GUEST_HOST_MASK, VMCS_CTRL_CR0_READ_SHADOW,
    VMCS_CTRL_CR4_READ_SHADOW, VMCS_GUEST_CR0, VMCS_GUEST_CR3, VMCS_GUEST_CR4,
    VMCS_GUEST_DR7, VMCS_HOST_CR0, VMCS_HOST_CR4, VMCS_HOST_CR3,
    VMCS_GUEST_GDTR_BASE, VMCS_GUEST_IDTR_BASE, VMCS_GUEST_GDTR_LIMIT,
    VMCS_GUEST_IDTR_LIMIT, VMCS_GUEST_RFLAGS, VMCS_GUEST_SYSENTER_CS,
    VMCS_GUEST_SYSENTER_EIP, VMCS_GUEST_SYSENTER_ESP, VMCS_HOST_TR_BASE,
    VMCS_HOST_FS_BASE, VMCS_HOST_GS_BASE, VMCS_HOST_GDTR_BASE,
    VMCS_HOST_IDTR_BASE, VMCS_HOST_SYSENTER_CS, VMCS_HOST_SYSENTER_EIP,
    VMCS_HOST_SYSENTER_ESP, VMCS_CTRL_MSR_BITMAP_ADDRESS,
    VMCS_CTRL_IO_BITMAP_A_ADDRESS, VMCS_CTRL_IO_BITMAP_B_ADDRESS,
    VMCS_CTRL_EPT_POINTER, VIRTUAL_PROCESSOR_ID, VMCS_GUEST_RSP, VMCS_GUEST_RIP,
    VMCS_HOST_RSP, VMCS_HOST_RIP]

/-- C8: `VmxSetupVmcs` writes every host segment selector as the current
selector masked with 0xF8, the host CR3 as the SYSTEM directory table
base (differing from the live CR3 whenever the two differ), the host RSP
as a 16-byte-aligned address inside the topmost 16 bytes of this core's
VMM stack, the host RIP as the VM-exit trampoline, the guest VMCS link
pointer as all-ones, and guest DR7 as 0x400. -/
theorem C8_vmxSetupVmcs_host_state :
    ∀ (env : SetupVmcsEnv) (segData : Nat → GuestSegmentData) (vmcs0 : Nat → Nat),
      env.cr3 ≠ env.systemDirectoryTableBase →
      env.vmmStack + env.vmmStackSize ≤ 2 ^ 64 →
      16 ≤ env.vmmStackSize →
      (vmxSetupVmcs env segData vmcs0) VMCS_HOST_ES_SELECTOR = env.es &&& 0xF8 ∧
      (vmxSetupVmcs env segData vmcs0) VMCS_HOST_CS_SELECTOR = env.cs &&& 0xF8 ∧
      (vmxSetupVmcs env segData vmcs0) VMCS_HOST_SS_SELECTOR = env.ss &&& 0xF8 ∧
      (vmxSetupVmcs env segData vmcs0) VMCS_HOST_DS_SELECTOR = env.ds &&& 0xF8 ∧
      (vmxSetupVmcs env segData vmcs0) VMCS_HOST_FS_SELECTOR = env.fs &&& 0xF8 ∧
      (vmxSetupVmcs env segData vmcs0) VMCS_HOST_GS_SELECTOR = env.gs &&& 0xF8 ∧
      (vmxSetupVmcs env segData vmcs0) VMCS_HOST_TR_SELECTOR = env.tr &&& 0xF8 ∧
      (vmxSetupVmcs env segData vmcs0) VMCS_HOST_CR3 = env.systemDirectoryTableBase ∧
      (vmxSetupVmcs env segData vmcs0) VMCS_HOST_CR3 ≠ env.cr3 ∧
      (vmxSetupVmcs env segData vmcs0) VMCS_HOST_RSP % 16 = 0 ∧
      env.vmmStack + env.vmmStackSize - 16 ≤ (vmxSetupVmcs env segData vmcs0) VMCS_HOST_RSP ∧
      (vmxSetupVmcs env segData vmcs0) VMCS_HOST_RSP < env.vmmStack + env.vmmStackSize ∧
      (vmxSetupVmcs env segData vmcs0) VMCS_HOST_RIP = env.asmVmexitHandler ∧
      (vmxSetupVmcs env segData vmcs0) VMCS_GUEST_VMCS_LINK_POINTER = 2 ^ 64 - 1 ∧
      (vmxSetupVmcs env segData vmcs0) VMCS_GUEST_DR7 = 0x400 := by
  intro env segData vmcs0 hne hsz h16
  obtain ⟨hes, hcs, hss, hds, hfs, hgs, htr, hcr3, hrsp, hrip, hlink, hdr7⟩ :=
    vmxSetupVmcs_lookups env segData vmcs0
  have hx : env.vmmStack + env.vmmStackSize - 1 < 2 ^ 64 := by omega
  have hval : hostRspValue env.vmmStack env.vmmStackSize =
      (env.vmmStack + env.vmmStackSize - 1) / 16 * 16 := by
    unfold hostRspValue
    rw [Nat.mod_eq_of_lt hx, land_align16 _ hx]
  rw [hval] at hrsp
  refine ⟨hes, hcs, hss, hds, hfs, hgs, htr, hcr3, ?_, ?_, ?_, ?_, hrip, hlink, hdr7⟩
  · rw [hcr3]; exact fun h => hne h.symm
  · rw [hrsp]; omega
  · rw [hrsp]
    have hdm := Nat.div_mul_le_self (env.vmmStack + env.vmmStackSize - 1) 16
    have hmod := Nat.mod_lt (env.vmmStack + env.vmmStackSize - 1) (show 0 < 16 by norm_num)
    omega
  · rw [hrsp]
    have hdm := Nat.div_mul_le_self (env.vmmStack + env.vmmStackSize - 1) 16
    omega

/-- C8 witness: with the concrete environment `setupVmcsEnv0` (live CR3 1,
SYSTEM CR3 2, stack base 0x1000 of size 0x10000), the host fields hold the
claimed values. -/
theorem C8_witness :
    (vmxSetupVmcs setupVmcsEnv0 segData0 (fun _ => 0)) VMCS_HOST_ES_SELECTOR =
      setupVmcsEnv0.es &&& 0xF8 ∧
    (vmxSetupVmcs setupVmcsEnv0 segData0 (fun _ => 0)) VMCS_HOST_CS_SELECTOR =
      setupVmcsEnv0.cs &&& 0xF8 ∧
    (vmxSetupVmcs setupVmcsEnv0 segData0 (fun _ => 0)) VMCS_HOST_SS_SELECTOR =
      setupVmcsEnv0.ss &&& 0xF8 ∧
    (vmxSetupVmcs setupVmcsEnv0 segData0 (fun _ => 0)) VMCS_HOST_DS_SELECTOR =
      setupVmcsEnv0.ds &&& 0xF8 ∧
    (vmxSetupVmcs setupVmcsEnv0 segData0 (fun _ => 0)) VMCS_HOST_FS_SELECTOR =
      setupVmcsEnv0.fs &&& 0xF8 ∧
    (vmxSetupVmcs setupVmcsEnv0 segData0 (fun _ => 0)) VMCS_HOST_GS_SELECTOR =
      setupVmcsEnv0.gs &&& 0xF8 ∧
    (vmxSetupVmcs setupVmcsEnv0 segData0 (fun _ => 0)) VMCS_HOST_TR_SELECTOR =
      setupVmcsEnv0.tr &&& 0xF8 ∧
    (vmxSetupVmcs setupVmcsEnv0 segData0 (fun _ => 0)) VMCS_HOST_CR3 =
      setupVmcsEnv0.systemDirectoryTableBase ∧
    (vmxSetupVmcs setupVmcsEnv0 segData0 (fun _ => 0)) VMCS_HOST_CR3 ≠
      setupVmcsEnv0.cr3 ∧
    (vmxSetupVmcs setupVmcsEnv0 segData0 (fun _ => 0)) VMCS_HOST_RSP % 16 = 0 ∧
    setupVmcsEnv0.vmmStack + setupVmcsEnv0.vmmStackSize - 16 ≤
      (vmxSetupVmcs setupVmcsEnv0 segData0 (fun _ => 0)) VMCS_HOST_RSP ∧
    (vmxSetupVmcs setupVmcsEnv0 segData0 (fun _ => 0)) VMCS_HOST_RSP <
      setupVmcsEnv0.vmmStack + setupVmcsEnv0.vmmStackSize ∧
    (vmxSetupVmcs setupVmcsEnv0 segData0 (fun _ => 0)) VMCS_HOST_RIP =
      setupVmcsEnv0.asmVmexitHandler ∧
    (vmxSetupVmcs setupVmcsEnv0 segData0 (fun _ => 0)) VMCS_GUEST_VMCS_LINK_POINTER =
      2 ^ 64 - 1 ∧
    (vmxSetupVmcs setupVmcsEnv0 segData0 (fun _ => 0)) VMCS_GUEST_DR7 = 0x400 :=
  C8_vmxSetupVmcs_host_state setupVmcsEnv0 segData0 (fun _ => 0)
    (by decide) (by decide) (by decide)

/-- Helper: every completed run of the scanning loop ends with the
original CR3 written back. -/
theorem strlenLoop_cr3 (mem : Nat → Nat) (ok : Nat → Bool) (orig : Nat) :
    ∀ (fuel s count : Nat) (r : StrlenResult),
      strlenLoop mem ok orig fuel s count = some r → r.cr3 = orig := by
  intro fuel
  induction fuel with
  | zero =>
      intro s count r h
      simp [strlenLoop] at h
  | succ n ih =>
      intro s count r h
      simp only [strlenLoop] at h
      split at h
      · split at h
        · split at h
          · exact ih _ _ _ h
          · obtain rfl := (Option.some.inj h).symm
            rfl
        · exact ih _ _ _ h
      · obtain rfl := (Option.some.inj h).symm
        rfl

/-- Helper: when the first NUL is at offset `n`, all bytes before it are
non-NUL, and every crossed page boundary passes the accessibility check,
the scanning loop returns `count + n`. -/
theorem strlenLoop_success (mem : Nat → Nat) (ok : Nat → Bool) (orig : Nat) :
    ∀ (n fuel s count : Nat),
      (∀ i, i < n → mem (s + i) ≠ 0) → mem (s + n) = 0 →
      (∀ i, i ≤ n → 1 ≤ i → (s + i) % PAGE_SIZE = 0 → ok (s + i) = true) →
      s + n < 2 ^ 64 → n < fuel →
      strlenLoop mem ok orig fuel s count = some ⟨count + n, orig⟩ := by
  intro n
  induction n with
  | zero =>
      intro fuel s count _ h0 _ _ hf
      obtain ⟨m, rfl⟩ : ∃ m, fuel = m + 1 := ⟨fuel - 1, by omega⟩
      simp only [strlenLoop]
      rw [if_neg (by simpa using h0)]
      rfl
  | succ k ih =>
      intro fuel s count hnz h0 hbd hlt hf
      obtain ⟨m, rfl⟩ : ∃ m, fuel = m + 1 := ⟨fuel - 1, by omega⟩
      simp only [strlenLoop]
      have hs0 : mem s ≠ 0 := by simpa using hnz 0 (by omega)
      rw [if_pos hs0]
      have hs1 : (s + 1) % 2 ^ 64 = s + 1 := Nat.mod_eq_of_lt (by omega)
      rw [hs1]
      have hrec : strlenLoop mem ok orig m (s + 1) (count + 1) =
          some ⟨count + 1 + k, orig⟩ := by
        apply ih
        · intro i hi
          have hmem := hnz (i + 1) (by omega)
          rw [show s + (i + 1) = s + 1 + i by omega] at hmem
          exact hmem
        · rw [show s + 1 + k = s + (k + 1) by omega]
          exact h0
        · intro i hile h1i hmod
          have hb := hbd (i + 1) (by omega) (by omega)
            (by rw [show s + (i + 1) = s + 1 + i by omega]; exact hmod)
          rw [show s + 1 + i = s + (i + 1) by omega]
          exact hb
        · omega
        · omega
      have hcnt : count + 1 + k = count + (k + 1) := by omega
      rw [hcnt] at hrec
      by_cases hb : (s + 1) % PAGE_SIZE = 0
      · rw [if_pos hb, if_pos (hbd 1 (by omega) (by omega) hb)]
        exact hrec
      · rw [if_neg hb]
        exact hrec

/-- Helper: when a crossed page boundary fails the accessibility check
before any NUL is reached, the scanning loop returns 0. -/
theorem strlenLoop_boundary_fail (mem : Nat → Nat) (ok : Nat → Bool) (orig : Nat) :
    ∀ (k fuel s count : Nat),
      1 ≤ k →
      (∀ i, i < k → mem (s + i) ≠ 0) →
      (s + k) % PAGE_SIZE = 0 → ok (s + k) = false →
      (∀ i, i < k → 1 ≤ i → (s + i) % PAGE_SIZE = 0 → ok (s + i) = true) →
      s + k < 2 ^ 64 → k ≤ fuel →
      strlenLoop mem ok orig fuel s count = some ⟨0, orig⟩ := by
  intro k
  induction k with
  | zero =>
      intro fuel s count h1
      exact absurd h1 (by omega)
  | succ k ih =>
      intro fuel s count _ hnz hmod hfail hbd hlt hf
      obtain ⟨m, rfl⟩ : ∃ m, fuel = m + 1 := ⟨fuel - 1, by omega⟩
      simp only [strlenLoop]
      have hs0 : mem s ≠ 0 := by simpa using hnz 0 (by omega)
      rw [if_pos hs0]
      have hs1 : (s + 1) % 2 ^ 64 = s + 1 := Nat.mod_eq_of_lt (by omega)
      rw [hs1]
      by_cases hk0 : k = 0
      · subst hk0
        have hb1 : (s + 1) % PAGE_SIZE = 0 := hmod
        rw [if_pos hb1, if_neg (by simp [hfail])]
      · have hk1 : 1 ≤ k := by omega
        have hrec : strlenLoop mem ok orig m (s + 1) (count + 1) =
            some ⟨0, orig⟩ := by
          apply ih _ _ _ hk1
          · intro i hi
            have hmem := hnz (i + 1) (by omega)
            rw [show s + (i + 1) = s + 1 + i by omega] at hmem
            exact hmem
          · rw [show s + 1 + k = s + (k + 1) by omega]
            exact hmod
          · rw [show s + 1 + k = s + (k + 1) by omega]
            exact hfail
          · intro i hik h1i hm
            have hb := hbd (i + 1) (by omega) (by omega)
              (by rw [show s + (i + 1) = s + 1 + i by omega]; exact hm)
            rw [show s + 1 + i = s + (i + 1) by omega]
            exact hb
          · omega
          · omega
        by_cases hb : (s + 1) % PAGE_SIZE = 0
        · rw [if_pos hb,
            if_pos (hbd 1 (by omega) (by omega) hb)]
          exact hrec
        · rw [if_neg hb]
          exact hrec

/-- C7: `VmxCompatibleStrlen` restores the original CR3 on every exit
path (first conjunct: every completed run); it returns 0 when the
accessibility check of the page-aligned target address fails (second
conjunct) or when the check at a crossed page boundary fails (fourth
conjunct); otherwise it returns the number of bytes before the first NUL
read via the safe memory reader (third conjunct). -/
theorem C7_vmxCompatibleStrlen_spec :
    (∀ (mem : Nat → Nat) (ok : Nat → Bool) (orig s fuel : Nat) (r : StrlenResult),
      vmxCompatibleStrlen mem ok orig s fuel = some r → r.cr3 = orig) ∧
    (∀ (mem : Nat → Nat) (ok : Nat → Bool) (orig s fuel : Nat),
      ok (pageAlign s) = false →
      vmxCompatibleStrlen mem ok orig s fuel = some ⟨0, orig⟩) ∧
    (∀ (mem : Nat → Nat) (ok : Nat → Bool) (orig s fuel n : Nat),
      ok (pageAlign s) = true →
      (∀ i, i < n → mem (s + i) ≠ 0) → mem (s + n) = 0 →
      (∀ i, i ≤ n → 1 ≤ i → (s + i) % PAGE_SIZE = 0 → ok (s + i) = true) →
      s + n < 2 ^ 64 → n < fuel →
      vmxCompatibleStrlen mem ok orig s fuel = some ⟨n, orig⟩) ∧
    (∀ (mem : Nat → Nat) (ok : Nat → Bool) (orig s fuel k : Nat),
      ok (pageAlign s) = true →
      1 ≤ k → (∀ i, i < k → mem (s + i) ≠ 0) →
      (s + k) % PAGE_SIZE = 0 → ok (s + k) = false →
      (∀ i, i < k → 1 ≤ i → (s + i) % PAGE_SIZE = 0 → ok (s + i) = true) →
      s + k < 2 ^ 64 → k ≤ fuel →
      vmxCompatibleStrlen mem ok orig s fuel = some ⟨0, orig⟩) := by
  refine ⟨fun mem ok orig s fuel r h => ?_, fun mem ok orig s fuel hfail => ?_,
    fun mem ok orig s fuel n hok hnz h0 hbd hlt hf => ?_,
    fun mem ok orig s fuel k hok hk hnz hmod hfail hbd hlt hf => ?_⟩
  · unfold vmxCompatibleStrlen at h
    split at h
    · obtain rfl := (Option.some.inj h).symm
      rfl
    · exact strlenLoop_cr3 mem ok orig fuel s 0 r h
  · unfold vmxCompatibleStrlen
    rw [if_pos hfail]
  · unfold vmxCompatibleStrlen
    rw [if_neg (by simp [hok])]
    have h := strlenLoop_success mem ok orig n fuel s 0 hnz h0 hbd hlt hf
    rw [Nat.zero_add] at h
    exact h
  · unfold vmxCompatibleStrlen
    rw [if_neg (by simp [hok])]
    exact strlenLoop_boundary_fail mem ok orig k fuel s 0 hk hnz hmod hfail hbd hlt hf

/-- C7 witness: memory holding three non-NUL bytes then a NUL at address
3, a fully accessible address space, original CR3 42: the scan returns
length 3 with CR3 restored to 42. -/
theorem C7_witness :
    vmxCompatibleStrlen (fun a => if a = 3 then 0 else 1) (fun _ => true)
      42 0 4 = some ⟨3, 42⟩ :=
  C7_vmxCompatibleStrlen_spec.2.2.1 (fun a => if a = 3 then 0 else 1)
    (fun _ => true) 42 0 4 3 rfl
    (by decide)
    (by decide)
    (fun i _ _ _ => rfl)
    (by decide)
    (by decide)

end HyperDbg
